import Mathlib

/-!
Shallow embedding of the `IndexedDBProxy` wrapper (packages/shared-utils,
utils/indexed-db) and the Vue plugin of this repository.  The proxy wraps a
Dexie database handle; Dexie itself is third-party, so we model the small
part of its observable behaviour that the wrapper relies on: the database
name, the version number `verno`, the registered tables (each with a primary
key name, index names and rows), the open/closed connection state, and the
calls made to the versioning API `version(n).stores(schema)`, which we record
in a log.  Records are modelled as association lists of field name to value.
-/

/-- A record (a plain JS object handed to `add`, `update`, `bulkAdd`):
an association list from field name to value. -/
abbrev Rec := List (String × Nat)

/-- The observable part of a Dexie `Table`: its name, its schema
(`schema.primKey.name` and `Object.keys(schema.idxByName)`), its rows keyed
by primary key, and the next auto-increment key. -/
structure TableInfo where
  name : String
  primKeyName : String
  idxNames : List String
  rows : List (Nat × Rec)
  nextKey : Nat
deriving Repr, DecidableEq

/-- The observable part of a Dexie database handle.  `storesLog` records every
successful `version(n).stores(schema)` call (version number and the schema
mapping exactly as passed).  `connLog` records `close()` / `open()` events.
`failStores` is a fault flag modelling the possibility that the wrapped
library's `stores` call itself throws. -/
structure DexieDB where
  name : String
  verno : Nat
  tables : List TableInfo
  isOpen : Bool
  failStores : Bool
  storesLog : List (Nat × List (String × Option String))
  connLog : List String
deriving Repr, DecidableEq

/-- `new Dexie(database)`: a fresh handle with the given name, version 0,
no tables. -/
def Dexie.new (database : String) : DexieDB :=
  { name := database, verno := 0, tables := [], isOpen := false,
    failStores := false, storesLog := [], connLog := [] }

/-- Find a registered table by name. -/
def DexieDB.findTable (db : DexieDB) (t : String) : Option TableInfo :=
  db.tables.find? (fun ti => ti.name == t)

/-- `db.table(name)`: returns the table, or throws (Dexie `InvalidTableError`)
when no table of that name is registered. -/
def DexieDB.table (db : DexieDB) (t : String) : Except String TableInfo :=
  match db.findTable t with
  | some ti => .ok ti
  | none => .error "InvalidTableError"

/-- `db.close()`. -/
def DexieDB.close (db : DexieDB) : DexieDB :=
  { db with isOpen := false, connLog := db.connLog ++ ["close"] }

/-- `db.open()`. -/
def DexieDB.openDB (db : DexieDB) : DexieDB :=
  { db with isOpen := true, connLog := db.connLog ++ ["open"] }

/-- Strip Dexie index modifiers (`++` auto-increment, `&` unique, `*` multi)
from one entry of a stores spec string. -/
def stripModifiers (s : String) : String :=
  if s.startsWith "++" then s.drop 2
  else if s.startsWith "&" then s.drop 1
  else if s.startsWith "*" then s.drop 1
  else s

/-- Parse a Dexie stores spec string such as `"++id, name, age"` into the
list of field names: the first is the primary key, the rest index names. -/
def parseIndexNames (spec : String) : List String :=
  (spec.splitOn ",").map (fun s => stripModifiers s.trim)

/-- A fresh table built from a stores spec string. -/
def makeTable (name spec : String) : TableInfo :=
  match parseIndexNames spec with
  | [] => { name := name, primKeyName := "", idxNames := [], rows := [], nextKey := 1 }
  | pk :: idxs => { name := name, primKeyName := pk, idxNames := idxs, rows := [], nextKey := 1 }

/-- Apply one entry of a schema mapping: `null` deletes the table, a spec
string creates the table or redefines its schema (rows are kept). -/
def applySchemaEntry (tables : List TableInfo) (entry : String × Option String) :
    List TableInfo :=
  match entry.2 with
  | none => tables.filter (fun ti => ti.name != entry.1)
  | some spec =>
    if tables.any (fun ti => ti.name == entry.1) then
      tables.map (fun ti =>
        if ti.name == entry.1 then
          { makeTable entry.1 spec with rows := ti.rows, nextKey := ti.nextKey }
        else ti)
    else tables ++ [makeTable entry.1 spec]

/-- Apply a whole schema mapping to the registered tables. -/
def applySchema (tables : List TableInfo)
    (schema : List (String × Option String)) : List TableInfo :=
  schema.foldl applySchemaEntry tables

/-- `db.version(n).stores(schema)`: record the call, set the version number
and update the registered tables; when the fault flag is set the wrapped
library throws instead. -/
def DexieDB.versionStores (db : DexieDB) (n : Nat)
    (schema : List (String × Option String)) : Except String DexieDB :=
  if db.failStores then .error "SchemaError"
  else .ok { db with verno := n,
                     tables := applySchema db.tables schema,
                     storesLog := db.storesLog ++ [(n, schema)] }

/-- Replace the table of the same name (used after a row operation). -/
def DexieDB.setTable (db : DexieDB) (ti : TableInfo) : DexieDB :=
  { db with tables := db.tables.map (fun t => if t.name == ti.name then ti else t) }

/-- `Table.add(item)`: when the item carries a value for the primary-key
field, that value is the key and a duplicate raises a `ConstraintError`;
otherwise the auto-increment key is used.  Returns the new key. -/
def TableInfo.addRow (ti : TableInfo) (item : Rec) : Except String (Nat × TableInfo) :=
  match item.find? (fun kv => kv.1 == ti.primKeyName) with
  | some kv =>
    if ti.rows.any (fun row => row.1 == kv.2) then .error "ConstraintError"
    else .ok (kv.2, { ti with rows := ti.rows ++ [(kv.2, item)],
                              nextKey := max ti.nextKey (kv.2 + 1) })
  | none =>
    .ok (ti.nextKey, { ti with rows := ti.rows ++ [(ti.nextKey, item)],
                               nextKey := ti.nextKey + 1 })

/-- Set one field of a record, overwriting an existing field of that name. -/
def setField (r : Rec) (k : String) (v : Nat) : Rec :=
  if r.any (fun kv => kv.1 == k) then
    r.map (fun kv => if kv.1 == k then (k, v) else kv)
  else r ++ [(k, v)]

/-- Merge the change data into an existing record (Dexie `Table.update`). -/
def mergeRec (old rnew : Rec) : Rec :=
  rnew.foldl (fun acc kv => setField acc kv.1 kv.2) old

/-- `Table.bulkAdd` starting at position `pos` with `lastKey` so far: inserts
each record in order, collecting the positional failures (`failuresByPos`)
instead of stopping; returns the table, the last inserted key and the
failures. -/
def TableInfo.bulkAddFrom (ti : TableInfo) (pos : Nat) (lastKey : Nat) :
    List Rec → TableInfo × Nat × List (Nat × String)
  | [] => (ti, lastKey, [])
  | r :: rs =>
    match ti.addRow r with
    | .ok kt =>
      kt.2.bulkAddFrom (pos + 1) kt.1 rs
    | .error e =>
      let rest := ti.bulkAddFrom (pos + 1) lastKey rs
      (rest.1, rest.2.1, (pos, e) :: rest.2.2)

/-- `Table.get` by primary key or by a query option (first row whose fields
all match). -/
def TableInfo.getRow (ti : TableInfo) (option : Sum Nat (List (String × Nat))) :
    Option Rec :=
  match option with
  | .inl pk => (ti.rows.find? (fun row => row.1 == pk)).map Prod.snd
  | .inr q =>
    (ti.rows.find? (fun row => q.all (fun kv => row.2.contains kv))).map Prod.snd

/- Error message formatting used by the proxy (the template literals of the
source, as plain concatenation). -/

/-- `` `${tableName}은 유효하지 않은 테이블입니다.` `` -/
def invalidTableMsg (tableName : String) : String :=
  tableName ++ "은 유효하지 않은 테이블입니다."

/-- `` `${key}는 유효하지 않은 스키마입니다.` `` -/
def badSchemaMsg (key : String) : String :=
  key ++ "는 유효하지 않은 스키마입니다."

/-- `` `테이블을 삭제하는데 실패하였습니다. ${err.message}` `` -/
def dropTableFailMsg (m : String) : String :=
  "테이블을 삭제하는데 실패하였습니다. " ++ m

/-- `` `스키마를 업데이트 하는데 실패하였습니다. ${err.message}` `` -/
def updateSchemaFailMsg (m : String) : String :=
  "스키마를 업데이트 하는데 실패하였습니다. " ++ m

/-- `` `등록하는데 실패하였습니다. ${err.message}` `` -/
def addFailMsg (m : String) : String :=
  "등록하는데 실패하였습니다. " ++ m

/-- `` `데이터를 가져오는데 실패하였습니다. ${err.message}` `` -/
def getFailMsg (m : String) : String :=
  "데이터를 가져오는데 실패하였습니다. " ++ m

/-- `` `작업 ${pos} 실패하였고 해당 에러가 발생하였습니다. ${error}` `` -/
def bulkAddPosFailMsg (pos : Nat) (e : String) : String :=
  "작업 " ++ toString pos ++ " 실패하였고 해당 에러가 발생하였습니다. " ++ e

/-- The `T | T[]` argument of the private validator `validExistTableSchema`:
either a single record or an array of records (`Array.isArray` distinguishes
the two). -/
inductive CheckData where
  | single (r : Rec)
  | array (rs : List Rec)
deriving Repr, DecidableEq

/-- The proxy class: it holds only the private Dexie handle `db`. -/
structure IndexedDBProxy where
  db : DexieDB
deriving Repr, DecidableEq

/-- `new IndexedDBProxy(database)`: `this.db = new Dexie(database)`. -/
def IndexedDBProxy.mkNew (database : String) : IndexedDBProxy :=
  ⟨Dexie.new database⟩

/-- `useIndexedDB(database)`: `new IndexedDBProxy(database)`. -/
def useIndexedDB (database : String) : IndexedDBProxy :=
  IndexedDBProxy.mkNew database

/-- `getDatabaseName()`: `this.db.name`. -/
def IndexedDBProxy.getDatabaseName (p : IndexedDBProxy) : String :=
  p.db.name

/-- `getVersionNo()`: `this.db.verno`. -/
def IndexedDBProxy.getVersionNo (p : IndexedDBProxy) : Nat :=
  p.db.verno

/-- `getTable(tableName)`: `this.db.table(tableName)`, rethrowing any error as
`` `${tableName}은 유효하지 않은 테이블입니다.` ``. -/
def IndexedDBProxy.getTable (p : IndexedDBProxy) (tableName : String) :
    Except String TableInfo :=
  match p.db.table tableName with
  | .ok ti => .ok ti
  | .error _ => .error (invalidTableMsg tableName)

/-- `getTableSchema(tableName)`: `this.getTable(tableName).schema` (the schema
part of our `TableInfo`). -/
def IndexedDBProxy.getTableSchema (p : IndexedDBProxy) (tableName : String) :
    Except String TableInfo :=
  p.getTable tableName

/-- `getTableList()`: names of all registered tables. -/
def IndexedDBProxy.getTableList (p : IndexedDBProxy) : List String :=
  p.db.tables.map (fun ti => ti.name)

/-- `createTable(tableSchema)`:
`this.db.version(this.getVersionNo() || 1).stores(tableSchema)`. -/
def IndexedDBProxy.createTable (p : IndexedDBProxy)
    (tableSchema : List (String × Option String)) :
    Except String Unit × IndexedDBProxy :=
  let v := if p.getVersionNo == 0 then 1 else p.getVersionNo
  match p.db.versionStores v tableSchema with
  | .ok db2 => (.ok (), ⟨db2⟩)
  | .error e => (.error e, p)

/-- `clearTable(tableName)`: `this.getTable(tableName).clear()`. -/
def IndexedDBProxy.clearTable (p : IndexedDBProxy) (tableName : String) :
    Except String Unit × IndexedDBProxy :=
  match p.getTable tableName with
  | .error e => (.error e, p)
  | .ok ti => (.ok (), ⟨p.db.setTable { ti with rows := [] }⟩)

/-- `dropTable(tableName)`: check the table exists, read the current version,
close, `version(current + 1).stores({[tableName]: null})`; any error is
rethrown as `` `테이블을 삭제하는데 실패하였습니다. ${err.message}` ``; the
`finally` block calls `this.db.open()` on every path. -/
def IndexedDBProxy.dropTable (p : IndexedDBProxy) (tableName : String) :
    Except String Unit × IndexedDBProxy :=
  match p.getTable tableName with
  | .error e => (.error (dropTableFailMsg e), ⟨p.db.openDB⟩)
  | .ok _ =>
    let currentVersion := p.getVersionNo
    let closed := p.db.close
    match closed.versionStores (currentVersion + 1) [(tableName, none)] with
    | .error e => (.error (dropTableFailMsg e), ⟨closed.openDB⟩)
    | .ok db2 => (.ok (), ⟨db2.openDB⟩)

/-- `validExistTable(schema)`: `this.getTable(tableName)` for every key of the
schema mapping. -/
def validExistTableAux (p : IndexedDBProxy) : List String → Except String Unit
  | [] => .ok ()
  | t :: ts =>
    match p.getTable t with
    | .error e => .error e
    | .ok _ => validExistTableAux p ts

/-- `validExistTable(schema)` over `Object.keys(schema)`. -/
def IndexedDBProxy.validExistTable (p : IndexedDBProxy)
    (schema : List (String × Option String)) : Except String Unit :=
  validExistTableAux p (schema.map Prod.fst)

/-- `updateTableSchema(schema)`: validate that all mapped tables exist, read
the current version, close, `version(current + 1).stores(schema)`; any error
is rethrown as `` `스키마를 업데이트 하는데 실패하였습니다. ${err.message}` ``
(there is no `finally`, so no reopen). -/
def IndexedDBProxy.updateTableSchema (p : IndexedDBProxy)
    (schema : List (String × Option String)) :
    Except String Unit × IndexedDBProxy :=
  match p.validExistTable schema with
  | .error e => (.error (updateSchemaFailMsg e), p)
  | .ok _ =>
    let currentVersion := p.getVersionNo
    let closed := p.db.close
    match closed.versionStores (currentVersion + 1) schema with
    | .error e => (.error (updateSchemaFailMsg e), ⟨closed⟩)
    | .ok db2 => (.ok (), ⟨db2⟩)

/-- The body of `validExistTableSchema`'s inner loops: the first field name of
a record that is not in `fieldNames` raises
`` `${key}는 유효하지 않은 스키마입니다.` ``. -/
def validRecords (fieldNames : List String) : List Rec → Except String Unit
  | [] => .ok ()
  | r :: rs =>
    match r.find? (fun kv => !(fieldNames.contains kv.1)) with
    | some kv => .error (badSchemaMsg kv.1)
    | none => validRecords fieldNames rs

/-- `validExistTableSchema(tableName, checkData)`: wrap a non-array argument
into a one-element array, collect the field names (index names of the table
schema, then the primary-key name), then check every key of every record. -/
def IndexedDBProxy.validExistTableSchema (p : IndexedDBProxy)
    (tableName : String) (checkData : CheckData) : Except String Unit :=
  let records : List Rec :=
    match checkData with
    | .single r => [r]
    | .array rs => rs
  match p.getTableSchema tableName with
  | .error e => .error e
  | .ok schema =>
    let fieldNames := schema.idxNames ++ [schema.primKeyName]
    validRecords fieldNames records

/-- `get(tableName, option)`: `this.getTable(tableName).get(option)`, a
synchronous `getTable` throw being rethrown as
`` `데이터를 가져오는데 실패하였습니다. ${err.message}` ``. -/
def IndexedDBProxy.get (p : IndexedDBProxy) (tableName : String)
    (option : Sum Nat (List (String × Nat))) : Except String (Option Rec) :=
  match p.getTable tableName with
  | .error e => .error (getFailMsg e)
  | .ok ti => .ok (ti.getRow option)

/-- `liveQuery(tableName, queryCallback)`: resolve the table, then run the
callback on it. -/
def IndexedDBProxy.liveQuery {α : Type} (p : IndexedDBProxy) (tableName : String)
    (queryCallback : TableInfo → Except String α) : Except String α :=
  match p.getTable tableName with
  | .error e => .error e
  | .ok ti => queryCallback ti

/-- `add(tableName, item)`: validate the schema, then in a transaction
`this.getTable(tableName).add(item)`; a rejection is rethrown as
`` `등록하는데 실패하였습니다. ${err.message}` `` and the transaction rolls
back. -/
def IndexedDBProxy.add (p : IndexedDBProxy) (tableName : String) (item : Rec) :
    Except String Nat × IndexedDBProxy :=
  match p.validExistTableSchema tableName (.single item) with
  | .error e => (.error e, p)
  | .ok _ =>
    match p.getTable tableName with
    | .error e => (.error e, p)
    | .ok ti =>
      match ti.addRow item with
      | .error e => (.error (addFailMsg e), p)
      | .ok kt => (.ok kt.1, ⟨p.db.setTable kt.2⟩)

/-- `update(tableName, primaryKey, changeData)`: validate the schema, then in
a transaction `this.getTable(tableName).update(primaryKey, changeData)`,
which merges the change into the row of that key and returns the number of
updated rows (1 or 0). -/
def IndexedDBProxy.update (p : IndexedDBProxy) (tableName : String)
    (primaryKey : Nat) (changeData : Rec) : Except String Nat × IndexedDBProxy :=
  match p.validExistTableSchema tableName (.single changeData) with
  | .error e => (.error e, p)
  | .ok _ =>
    match p.getTable tableName with
    | .error e => (.error e, p)
    | .ok ti =>
      if ti.rows.any (fun row => row.1 == primaryKey) then
        let ti2 := { ti with rows := ti.rows.map (fun row =>
          if row.1 == primaryKey then (row.1, mergeRec row.2 changeData) else row) }
        (.ok 1, ⟨p.db.setTable ti2⟩)
      else (.ok 0, p)

/-- `delete(tableName, primaryKey)`: in a transaction
`this.getTable(tableName).delete(primaryKey)`. -/
def IndexedDBProxy.deleteRow (p : IndexedDBProxy) (tableName : String)
    (primaryKey : Nat) : Except String Unit × IndexedDBProxy :=
  match p.getTable tableName with
  | .error e => (.error e, p)
  | .ok ti =>
    (.ok (), ⟨p.db.setTable
      { ti with rows := ti.rows.filter (fun row => row.1 != primaryKey) }⟩)

/-- `bulkGet(tableName, primaryKeys)`: one lookup per key, `undefined` for a
missing key. -/
def IndexedDBProxy.bulkGet (p : IndexedDBProxy) (tableName : String)
    (primaryKeys : List Nat) : Except String (List (Option Rec)) :=
  match p.getTable tableName with
  | .error e => .error e
  | .ok ti =>
    .ok (primaryKeys.map (fun pk =>
      (ti.rows.find? (fun row => row.1 == pk)).map Prod.snd))

/-- `bulkAdd(tableName, items)`: validate the schema, then in a transaction
`this.getTable(tableName).bulkAdd(items)`; on a `BulkError` the handler
throws `` `작업 ${pos} 실패하였고 해당 에러가 발생하였습니다. ${error}` `` for
the first entry of `failuresByPos`, aborting the transaction; otherwise the
last inserted primary key is returned. -/
def IndexedDBProxy.bulkAdd (p : IndexedDBProxy) (tableName : String)
    (items : List Rec) : Except String Nat × IndexedDBProxy :=
  match p.validExistTableSchema tableName (.array items) with
  | .error e => (.error e, p)
  | .ok _ =>
    match p.getTable tableName with
    | .error e => (.error e, p)
    | .ok ti =>
      let res := ti.bulkAddFrom 0 0 items
      match res.2.2 with
      | [] => (.ok res.2.1, ⟨p.db.setTable res.1⟩)
      | pe :: _ => (.error (bulkAddPosFailMsg pe.1 pe.2), p)

/-- `bulkDelete(tableName, primaryKeys)`: in a transaction
`this.getTable(tableName).bulkDelete(primaryKeys)`. -/
def IndexedDBProxy.bulkDelete (p : IndexedDBProxy) (tableName : String)
    (primaryKeys : List Nat) : Except String Unit × IndexedDBProxy :=
  match p.getTable tableName with
  | .error e => (.error e, p)
  | .ok ti =>
    (.ok (), ⟨p.db.setTable
      { ti with rows := ti.rows.filter (fun row => !(primaryKeys.contains row.1)) }⟩)

/-- The Vue `App`: we model only `app.config.globalProperties`, an object
whose `$indexedDB` slot (when set) holds a function from a database name to
a proxy. -/
structure VueApp where
  globalProperties : List (String × (String → IndexedDBProxy))

/-- Property assignment on `globalProperties` (JS object property set). -/
def VueApp.setGlobalProperty (app : VueApp) (k : String)
    (f : String → IndexedDBProxy) : VueApp :=
  { app with globalProperties :=
      (k, f) :: app.globalProperties.filter (fun kv => kv.1 != k) }

/-- Property lookup on `globalProperties`. -/
def VueApp.getGlobalProperty (app : VueApp) (k : String) :
    Option (String → IndexedDBProxy) :=
  (app.globalProperties.find? (fun kv => kv.1 == k)).map Prod.snd

/-- `vueIndexedDBPlugin.install(app)`:
`app.config.globalProperties.$indexedDB = (dbName) => useIndexedDB(dbName)`. -/
def vueIndexedDBPlugin.install (app : VueApp) : VueApp :=
  app.setGlobalProperty "$indexedDB" (fun dbName => useIndexedDB dbName)

/-- `true` exactly on the `error` constructor. -/
def Except.isErr {ε α : Type} : Except ε α → Bool
  | .error _ => true
  | .ok _ => false

/-- The field names accepted by `validExistTableSchema`:
`Object.keys(schema.idxByName)` followed by `schema.primKey.name`. -/
def fieldNamesOf (schema : TableInfo) : List String :=
  schema.idxNames ++ [schema.primKeyName]

/- Helper lemmas. -/

theorem validExistTableSchema_eq (p : IndexedDBProxy) (t : String) (ti : TableInfo)
    (h : p.getTable t = .ok ti) (cd : CheckData) :
    p.validExistTableSchema t cd =
      validRecords (fieldNamesOf ti)
        (match cd with | .single r => [r] | .array rs => rs) := by
  unfold IndexedDBProxy.validExistTableSchema IndexedDBProxy.getTableSchema
  rw [h]
  rfl

theorem validRecords_ok (fn : List String) (rs : List Rec)
    (h : ∀ r ∈ rs, r.all (fun kv => fn.contains kv.1) = true) :
    validRecords fn rs = .ok () := by
  induction rs with
  | nil => rfl
  | cons r rs ih =>
    have hr := h r (List.mem_cons_self r rs)
    rw [List.all_eq_true] at hr
    have hfind : r.find? (fun kv => !(fn.contains kv.1)) = none := by
      rw [List.find?_eq_none]
      intro kv hkv
      simp only [Bool.not_eq_true, Bool.not_eq_false']
      exact hr kv hkv
    simp only [validRecords, hfind]
    exact ih (fun r2 hr2 => h r2 (List.mem_cons_of_mem _ hr2))

theorem validRecords_err (fn : List String) (rs : List Rec)
    (h : ∃ r ∈ rs, r.all (fun kv => fn.contains kv.1) = false) :
    ∃ k, fn.contains k = false ∧ (∃ r ∈ rs, k ∈ r.map Prod.fst) ∧
      validRecords fn rs = .error (badSchemaMsg k) := by
  induction rs with
  | nil => simp at h
  | cons r rs ih =>
    cases hfind : r.find? (fun kv => !(fn.contains kv.1)) with
    | some kv =>
      refine ⟨kv.1, ?_, ⟨r, List.mem_cons_self r rs,
        List.mem_map_of_mem Prod.fst (List.mem_of_find?_eq_some hfind)⟩, ?_⟩
      · have hp := List.find?_some hfind
        simpa using hp
      · simp only [validRecords, hfind]
    | none =>
      have hr : r.all (fun kv => fn.contains kv.1) = true := by
        rw [List.all_eq_true]
        intro kv hkv
        have hnp := List.find?_eq_none.mp hfind kv hkv
        simpa using hnp
      have h2 : ∃ r2 ∈ rs, r2.all (fun kv => fn.contains kv.1) = false := by
        rcases h with ⟨r2, hmem, hall⟩
        rcases List.mem_cons.mp hmem with heq | hmem2
        · subst heq
          rw [hr] at hall
          exact absurd hall (by simp)
        · exact ⟨r2, hmem2, hall⟩
      rcases ih h2 with ⟨k, hk1, ⟨r2, hm, hkm⟩, hval⟩
      exact ⟨k, hk1, ⟨r2, List.mem_cons_of_mem _ hm, hkm⟩,
        by simp only [validRecords, hfind]; exact hval⟩

theorem validExistTableAux_ok (p : IndexedDBProxy) (ts : List String)
    (h : ∀ t ∈ ts, (p.db.findTable t).isSome = true) :
    validExistTableAux p ts = .ok () := by
  induction ts with
  | nil => rfl
  | cons t ts ih =>
    have ht := h t (List.mem_cons_self t ts)
    have hgt : ∃ ti, p.getTable t = .ok ti := by
      unfold IndexedDBProxy.getTable DexieDB.table
      cases hft : p.db.findTable t with
      | none => rw [hft] at ht; simp at ht
      | some ti => exact ⟨ti, rfl⟩
    rcases hgt with ⟨ti, hgt⟩
    simp only [validExistTableAux, hgt]
    exact ih (fun t2 ht2 => h t2 (List.mem_cons_of_mem _ ht2))

theorem validExistTableAux_err (p : IndexedDBProxy) (ts : List String)
    (h : ∃ t ∈ ts, p.db.findTable t = none) :
    ∃ t, validExistTableAux p ts = .error (invalidTableMsg t) := by
  induction ts with
  | nil => simp at h
  | cons t ts ih =>
    cases hft : p.db.findTable t with
    | none =>
      refine ⟨t, ?_⟩
      simp only [validExistTableAux, IndexedDBProxy.getTable, DexieDB.table, hft]
    | some ti =>
      have hgt : p.getTable t = .ok ti := by
        simp only [IndexedDBProxy.getTable, DexieDB.table, hft]
      have h2 : ∃ t2 ∈ ts, p.db.findTable t2 = none := by
        rcases h with ⟨t2, hmem, hnone⟩
        rcases List.mem_cons.mp hmem with heq | hmem2
        · subst heq; rw [hft] at hnone; exact absurd hnone (by simp)
        · exact ⟨t2, hmem2, hnone⟩
      rcases ih h2 with ⟨t2, hval⟩
      exact ⟨t2, by simp only [validExistTableAux, hgt]; exact hval⟩

theorem setTable_name (db : DexieDB) (ti : TableInfo) :
    (db.setTable ti).name = db.name := rfl

theorem versionStores_ok_name (db db2 : DexieDB) (n : Nat)
    (schema : List (String × Option String))
    (h : db.versionStores n schema = .ok db2) : db2.name = db.name := by
  unfold DexieDB.versionStores at h
  by_cases hf : db.failStores
  · simp [hf] at h
  · simp [hf] at h
    rw [← h]

theorem getTable_of_findTable (p : IndexedDBProxy) (t : String) (ti : TableInfo)
    (h : p.db.findTable t = some ti) : p.getTable t = .ok ti := by
  simp only [IndexedDBProxy.getTable, DexieDB.table, h]

theorem getTable_of_findTable_none (p : IndexedDBProxy) (t : String)
    (h : p.db.findTable t = none) : p.getTable t = .error (invalidTableMsg t) := by
  simp only [IndexedDBProxy.getTable, DexieDB.table, h]

/-- A fixture table: primary key `id`, index names `name` and `age`
(as produced by the stores spec `"++id, name, age"`). -/
def friendsTable : TableInfo :=
  { name := "friends", primKeyName := "id", idxNames := ["name", "age"],
    rows := [], nextKey := 1 }

/-- A fixture proxy: database `myDB` at version 1 holding `friendsTable`. -/
def sampleProxy : IndexedDBProxy :=
  ⟨{ name := "myDB", verno := 1, tables := [friendsTable], isOpen := true,
     failStores := false, storesLog := [], connLog := [] }⟩

/-- C5: installing the plugin sets the framework's global property
`$indexedDB` to a function that, for every string `dbName`, returns exactly
what `useIndexedDB dbName` returns: a newly constructed `IndexedDBProxy`
over a database handle named `dbName`. -/
theorem C5_plugin_injects_factory (app : VueApp) (d : String) :
    ∃ f, (vueIndexedDBPlugin.install app).getGlobalProperty "$indexedDB" = some f ∧
      f d = useIndexedDB d ∧
      useIndexedDB d = ⟨Dexie.new d⟩ ∧
      (useIndexedDB d).getDatabaseName = d := by
  refine ⟨fun dbName => useIndexedDB dbName, ?_, rfl, rfl, rfl⟩
  simp [vueIndexedDBPlugin.install, VueApp.setGlobalProperty, VueApp.getGlobalProperty,
    List.find?_cons]

/-- C8: the schema validation of `add` on a single (non-array) record is
identical to that of `bulkAdd` on the one-element array: the private
validator wraps a non-array argument into a one-element array. -/
theorem C8_single_eq_singleton_array (p : IndexedDBProxy) (t : String) (x : Rec) :
    p.validExistTableSchema t (.single x) = p.validExistTableSchema t (.array [x]) :=
  rfl

/-- C9: on every exit path of `dropTable` — normal return, unknown table, or
a failing versioning call — `open()` is invoked in the `finally` block, so
the handle comes back open and the connection log ends with an `open`
event. -/
theorem C9_dropTable_always_reopens (p : IndexedDBProxy) (t : String) :
    (p.dropTable t).2.db.isOpen = true ∧
    ∃ l, (p.dropTable t).2.db.connLog = p.db.connLog ++ (l ++ ["open"]) := by
  cases hft : p.db.findTable t with
  | none =>
    have hgt := getTable_of_findTable_none p t hft
    refine ⟨?_, [], ?_⟩ <;>
      simp [IndexedDBProxy.dropTable, hgt, DexieDB.openDB]
  | some ti =>
    have hgt := getTable_of_findTable p t ti hft
    by_cases hf : p.db.failStores = true
    · refine ⟨?_, ["close"], ?_⟩ <;>
        simp [IndexedDBProxy.dropTable, hgt, DexieDB.versionStores, DexieDB.close,
          DexieDB.openDB, hf]
    · refine ⟨?_, ["close"], ?_⟩ <;>
        simp [IndexedDBProxy.dropTable, hgt, DexieDB.versionStores, DexieDB.close,
          DexieDB.openDB, hf]

theorem add_name (p : IndexedDBProxy) (t : String) (item : Rec) :
    (p.add t item).2.db.name = p.db.name := by
  unfold IndexedDBProxy.add
  repeat' split
  all_goals rfl

theorem update_name (p : IndexedDBProxy) (t : String) (pk : Nat) (cd : Rec) :
    (p.update t pk cd).2.db.name = p.db.name := by
  unfold IndexedDBProxy.update
  repeat' split
  all_goals rfl

theorem deleteRow_name (p : IndexedDBProxy) (t : String) (pk : Nat) :
    (p.deleteRow t pk).2.db.name = p.db.name := by
  unfold IndexedDBProxy.deleteRow
  repeat' split
  all_goals rfl

theorem bulkAdd_name (p : IndexedDBProxy) (t : String) (items : List Rec) :
    (p.bulkAdd t items).2.db.name = p.db.name := by
  unfold IndexedDBProxy.bulkAdd
  cases hv : p.validExistTableSchema t (.array items) with
  | error e => rfl
  | ok u =>
    cases hg : p.getTable t with
    | error e => rfl
    | ok ti =>
      dsimp only
      cases hres : (ti.bulkAddFrom 0 0 items).2.2 with
      | nil => rfl
      | cons pe rest => rfl

theorem bulkDelete_name (p : IndexedDBProxy) (t : String) (pks : List Nat) :
    (p.bulkDelete t pks).2.db.name = p.db.name := by
  unfold IndexedDBProxy.bulkDelete
  repeat' split
  all_goals rfl

theorem clearTable_name (p : IndexedDBProxy) (t : String) :
    (p.clearTable t).2.db.name = p.db.name := by
  unfold IndexedDBProxy.clearTable
  repeat' split
  all_goals rfl

theorem createTable_name (p : IndexedDBProxy) (schema : List (String × Option String)) :
    (p.createTable schema).2.db.name = p.db.name := by
  unfold IndexedDBProxy.createTable
  dsimp only
  cases hv : p.db.versionStores (if p.getVersionNo == 0 then 1 else p.getVersionNo)
      schema with
  | error e => rfl
  | ok db2 =>
    dsimp only
    exact versionStores_ok_name _ _ _ _ hv

theorem dropTable_name (p : IndexedDBProxy) (t : String) :
    (p.dropTable t).2.db.name = p.db.name := by
  unfold IndexedDBProxy.dropTable
  cases hg : p.getTable t with
  | error e => rfl
  | ok ti =>
    dsimp only
    cases hv : (p.db.close).versionStores (p.getVersionNo + 1) [(t, none)] with
    | error e => rfl
    | ok db2 =>
      dsimp only
      have hn := versionStores_ok_name _ _ _ _ hv
      simp [DexieDB.openDB, hn, DexieDB.close]

theorem updateTableSchema_name (p : IndexedDBProxy)
    (schema : List (String × Option String)) :
    (p.updateTableSchema schema).2.db.name = p.db.name := by
  unfold IndexedDBProxy.updateTableSchema
  cases hv : p.validExistTable schema with
  | error e => rfl
  | ok u =>
    dsimp only
    cases hvs : (p.db.close).versionStores (p.getVersionNo + 1) schema with
    | error e => rfl
    | ok db2 =>
      dsimp only
      have hn := versionStores_ok_name _ _ _ _ hvs
      simp [hn, DexieDB.close]

/-- C10: the database name is fixed at construction: `useIndexedDB d` and
`new IndexedDBProxy(d)` both report `getDatabaseName() = d`, and no public
operation of the proxy changes the name afterwards. -/
theorem C10_database_name_fixed (d t : String)
    (schema : List (String × Option String)) (item cd : Rec) (items : List Rec)
    (pk : Nat) (pks : List Nat) (p : IndexedDBProxy) :
    (useIndexedDB d).getDatabaseName = d ∧
    (IndexedDBProxy.mkNew d).getDatabaseName = d ∧
    (p.createTable schema).2.getDatabaseName = p.getDatabaseName ∧
    (p.clearTable t).2.getDatabaseName = p.getDatabaseName ∧
    (p.dropTable t).2.getDatabaseName = p.getDatabaseName ∧
    (p.updateTableSchema schema).2.getDatabaseName = p.getDatabaseName ∧
    (p.add t item).2.getDatabaseName = p.getDatabaseName ∧
    (p.update t pk cd).2.getDatabaseName = p.getDatabaseName ∧
    (p.deleteRow t pk).2.getDatabaseName = p.getDatabaseName ∧
    (p.bulkAdd t items).2.getDatabaseName = p.getDatabaseName ∧
    (p.bulkDelete t pks).2.getDatabaseName = p.getDatabaseName :=
  ⟨rfl, rfl, createTable_name p schema, clearTable_name p t, dropTable_name p t,
   updateTableSchema_name p schema, add_name p t item, update_name p t pk cd,
   deleteRow_name p t pk, bulkAdd_name p t items, bulkDelete_name p t pks⟩

/-- C1: for `add`, `update` and `bulkAdd`, a record field name that is
neither a registered index name nor the primary-key name makes the operation
throw `` `${key}는 유효하지 않은 스키마입니다.` `` before any data reaches the
wrapped store (the proxy state is unchanged); when every field name of every
record is registered, the validation passes. -/
theorem C1_schema_validation (p : IndexedDBProxy) (t : String) (ti : TableInfo)
    (hreg : p.getTable t = .ok ti) (item : Rec) (pk : Nat) (items : List Rec) :
    (item.all (fun kv => (fieldNamesOf ti).contains kv.1) = false →
      ∃ k, (fieldNamesOf ti).contains k = false ∧ k ∈ item.map Prod.fst ∧
        p.add t item = (.error (badSchemaMsg k), p) ∧
        p.update t pk item = (.error (badSchemaMsg k), p)) ∧
    ((∃ r ∈ items, r.all (fun kv => (fieldNamesOf ti).contains kv.1) = false) →
      ∃ k, (fieldNamesOf ti).contains k = false ∧ (∃ r ∈ items, k ∈ r.map Prod.fst) ∧
        p.bulkAdd t items = (.error (badSchemaMsg k), p)) ∧
    (item.all (fun kv => (fieldNamesOf ti).contains kv.1) = true →
      p.validExistTableSchema t (.single item) = .ok ()) ∧
    ((∀ r ∈ items, r.all (fun kv => (fieldNamesOf ti).contains kv.1) = true) →
      p.validExistTableSchema t (.array items) = .ok ()) := by
  refine ⟨?_, ?_, ?_, ?_⟩
  · intro hbad
    rcases validRecords_err (fieldNamesOf ti) [item] ⟨item, by simp, hbad⟩ with
      ⟨k, hk1, ⟨r, hr, hkm⟩, hval⟩
    rw [List.mem_singleton.mp hr] at hkm
    have hv : p.validExistTableSchema t (.single item) = .error (badSchemaMsg k) := by
      rw [validExistTableSchema_eq p t ti hreg]
      exact hval
    refine ⟨k, hk1, hkm, ?_, ?_⟩
    · unfold IndexedDBProxy.add
      rw [hv]
    · unfold IndexedDBProxy.update
      rw [hv]
  · intro hbad
    rcases validRecords_err (fieldNamesOf ti) items hbad with ⟨k, hk1, hex, hval⟩
    have hv : p.validExistTableSchema t (.array items) = .error (badSchemaMsg k) := by
      rw [validExistTableSchema_eq p t ti hreg]
      exact hval
    refine ⟨k, hk1, hex, ?_⟩
    unfold IndexedDBProxy.bulkAdd
    rw [hv]
  · intro hgood
    rw [validExistTableSchema_eq p t ti hreg]
    refine validRecords_ok _ _ ?_
    intro r hr
    rcases List.mem_singleton.mp hr with rfl
    exact hgood
  · intro hgood
    rw [validExistTableSchema_eq p t ti hreg]
    exact validRecords_ok _ _ hgood

/-- Witness for C1 at the fixture: the unregistered field `bogus` makes `add`
throw with the formatted message and leave the proxy unchanged, while a
record using only `name` passes the validation. -/
theorem C1_schema_validation_witness :
    sampleProxy.add "friends" [("bogus", 5)] = (.error (badSchemaMsg "bogus"), sampleProxy) ∧
    sampleProxy.validExistTableSchema "friends" (.single [("name", 3)]) = .ok () := by
  constructor
  · rcases (C1_schema_validation sampleProxy "friends" friendsTable rfl
      [("bogus", 5)] 1 []).1 (by decide) with ⟨k, hk, hkm, hadd, hupd⟩
    have hkeq : k = "bogus" := by simpa using hkm
    rw [hkeq] at hadd
    exact hadd
  · exact (C1_schema_validation sampleProxy "friends" friendsTable rfl
      [("name", 3)] 1 []).2.2.1 (by decide)

/-- C2: for a registered table (and a well-behaved wrapped library),
`dropTable` closes the database, passes `{[tableName]: null}` to the
versioning API at exactly the current version plus one, and reopens; for an
unregistered table it throws the message beginning
`테이블을 삭제하는데 실패하였습니다.`. -/
theorem C2_dropTable_versioning (p : IndexedDBProxy) (t : String) (ti : TableInfo) :
    (p.getTable t = .ok ti → p.db.failStores = false →
      (p.dropTable t).1 = .ok () ∧
      (p.dropTable t).2.db.storesLog =
        p.db.storesLog ++ [(p.db.verno + 1, [(t, none)])] ∧
      (p.dropTable t).2.db.connLog = p.db.connLog ++ ["close", "open"] ∧
      (p.dropTable t).2.db.isOpen = true) ∧
    (p.db.findTable t = none →
      (p.dropTable t).1 = .error (dropTableFailMsg (invalidTableMsg t))) := by
  constructor
  · intro hreg hf
    unfold IndexedDBProxy.dropTable
    rw [hreg]
    simp [DexieDB.versionStores, DexieDB.close, DexieDB.openDB, hf,
      IndexedDBProxy.getVersionNo]
  · intro hnone
    have hgt := getTable_of_findTable_none p t hnone
    unfold IndexedDBProxy.dropTable
    rw [hgt]

/-- Witness for C2 at the fixture: dropping the registered `friends` table
succeeds and logs `{friends: null}` at version 2; dropping an unknown table
on a fresh proxy throws the formatted message. -/
theorem C2_dropTable_versioning_witness :
    (sampleProxy.dropTable "friends").1 = .ok () ∧
    (sampleProxy.dropTable "friends").2.db.storesLog = [(2, [("friends", none)])] ∧
    ((useIndexedDB "d").dropTable "nope").1 =
      .error (dropTableFailMsg (invalidTableMsg "nope")) := by
  refine ⟨?_, ?_, ?_⟩
  · exact ((C2_dropTable_versioning sampleProxy "friends" friendsTable).1 rfl rfl).1
  · have h := ((C2_dropTable_versioning sampleProxy "friends" friendsTable).1 rfl rfl).2.1
    simpa using h
  · exact (C2_dropTable_versioning (useIndexedDB "d") "nope" friendsTable).2 rfl

/-- C3: `createTable` passes the mapping unchanged to the versioning API,
at the current version number when one exists and at version 1 otherwise;
the version number is not incremented. -/
theorem C3_createTable_current_version (p : IndexedDBProxy)
    (schema : List (String × Option String)) (h : p.db.failStores = false) :
    (p.createTable schema).1 = .ok () ∧
    (p.createTable schema).2.db.storesLog =
      p.db.storesLog ++ [((if p.db.verno = 0 then 1 else p.db.verno), schema)] := by
  by_cases hv : p.db.verno = 0
  · simp [IndexedDBProxy.createTable, DexieDB.versionStores, h,
      IndexedDBProxy.getVersionNo, hv]
  · simp [IndexedDBProxy.createTable, DexieDB.versionStores, h,
      IndexedDBProxy.getVersionNo, hv]

/-- Witness for C3: on a fresh database (version 0), `createTable` registers
the mapping, unchanged, at version 1; at the version-1 fixture it registers
at version 1 again (no increment). -/
theorem C3_createTable_current_version_witness :
    ((useIndexedDB "d").createTable [("tbl", some "++id")]).1 = .ok () ∧
    ((useIndexedDB "d").createTable [("tbl", some "++id")]).2.db.storesLog =
      [(1, [("tbl", some "++id")])] ∧
    (sampleProxy.createTable [("tbl", some "++id")]).2.db.storesLog =
      [(1, [("tbl", some "++id")])] := by
  have h1 := C3_createTable_current_version (useIndexedDB "d")
    [("tbl", some "++id")] rfl
  have h2 := C3_createTable_current_version sampleProxy [("tbl", some "++id")] rfl
  refine ⟨h1.1, ?_, ?_⟩
  · have := h1.2
    simpa using this
  · have := h2.2
    simpa using this

/-- C4: `updateTableSchema` first verifies that every table name of the
mapping refers to an existing table; on success it closes the database and
passes the mapping at the current version plus one; an unknown table or a
versioning error is rethrown with a message beginning
`스키마를 업데이트 하는데 실패하였습니다.`. -/
theorem C4_updateTableSchema (p : IndexedDBProxy)
    (schema : List (String × Option String)) :
    ((∀ t ∈ schema.map Prod.fst, (p.db.findTable t).isSome = true) →
      p.db.failStores = false →
      (p.updateTableSchema schema).1 = .ok () ∧
      (p.updateTableSchema schema).2.db.storesLog =
        p.db.storesLog ++ [(p.db.verno + 1, schema)] ∧
      (p.updateTableSchema schema).2.db.connLog = p.db.connLog ++ ["close"]) ∧
    ((∃ t ∈ schema.map Prod.fst, p.db.findTable t = none) →
      ∃ m, (p.updateTableSchema schema).1 = .error (updateSchemaFailMsg m)) ∧
    ((∀ t ∈ schema.map Prod.fst, (p.db.findTable t).isSome = true) →
      p.db.failStores = true →
      ∃ m, (p.updateTableSchema schema).1 = .error (updateSchemaFailMsg m)) := by
  refine ⟨?_, ?_, ?_⟩
  · intro hall hf
    have hv : p.validExistTable schema = .ok () :=
      validExistTableAux_ok p (schema.map Prod.fst) hall
    unfold IndexedDBProxy.updateTableSchema
    rw [hv]
    simp [DexieDB.versionStores, DexieDB.close, hf, IndexedDBProxy.getVersionNo]
  · intro hex
    rcases validExistTableAux_err p (schema.map Prod.fst) hex with ⟨t2, hval⟩
    have hv : p.validExistTable schema = .error (invalidTableMsg t2) := hval
    refine ⟨invalidTableMsg t2, ?_⟩
    unfold IndexedDBProxy.updateTableSchema
    rw [hv]
  · intro hall hf
    have hv : p.validExistTable schema = .ok () :=
      validExistTableAux_ok p (schema.map Prod.fst) hall
    refine ⟨"SchemaError", ?_⟩
    unfold IndexedDBProxy.updateTableSchema
    rw [hv]
    simp [DexieDB.versionStores, DexieDB.close, hf]

/-- Witness for C4 at the fixture: a mapping over the existing `friends`
table succeeds and is logged at version 2 with a close event; a mapping
naming an unknown table is rejected with the formatted prefix. -/
theorem C4_updateTableSchema_witness :
    (sampleProxy.updateTableSchema [("friends", some "++id, name")]).1 = .ok () ∧
    (sampleProxy.updateTableSchema [("friends", some "++id, name")]).2.db.storesLog =
      [(2, [("friends", some "++id, name")])] ∧
    (∃ m, (sampleProxy.updateTableSchema [("nope", some "++id")]).1 =
      .error (updateSchemaFailMsg m)) := by
  have h1 := (C4_updateTableSchema sampleProxy [("friends", some "++id, name")]).1
    (by decide) rfl
  refine ⟨h1.1, ?_, ?_⟩
  · have := h1.2.1
    simpa using this
  · exact (C4_updateTableSchema sampleProxy [("nope", some "++id")]).2.1
      ⟨"nope", by decide, by decide⟩

/-- C6: for a table name not registered in the database, `getTable` throws
`` `${tableName}은 유효하지 않은 테이블입니다.` ``, and consequently every
public operation that resolves a table by name fails on it. -/
theorem C6_unknown_table_fails (p : IndexedDBProxy) (t : String)
    (h : p.db.findTable t = none) (item cd : Rec) (items : List Rec)
    (pk : Nat) (pks : List Nat) (q : Sum Nat (List (String × Nat)))
    (cb : TableInfo → Except String Nat) :
    p.getTable t = .error (invalidTableMsg t) ∧
    (p.getTableSchema t).isErr = true ∧
    (p.clearTable t).1.isErr = true ∧
    (p.get t q).isErr = true ∧
    (p.liveQuery t cb).isErr = true ∧
    (p.add t item).1.isErr = true ∧
    (p.update t pk cd).1.isErr = true ∧
    (p.deleteRow t pk).1.isErr = true ∧
    (p.bulkGet t pks).isErr = true ∧
    (p.bulkAdd t items).1.isErr = true ∧
    (p.bulkDelete t pks).1.isErr = true := by
  have hgt := getTable_of_findTable_none p t h
  have hval : ∀ cd2, p.validExistTableSchema t cd2 = .error (invalidTableMsg t) := by
    intro cd2
    unfold IndexedDBProxy.validExistTableSchema IndexedDBProxy.getTableSchema
    rw [hgt]
  refine ⟨hgt, ?_, ?_, ?_, ?_, ?_, ?_, ?_, ?_, ?_, ?_⟩ <;>
    simp [IndexedDBProxy.getTableSchema, IndexedDBProxy.clearTable,
      IndexedDBProxy.get, IndexedDBProxy.liveQuery, IndexedDBProxy.add,
      IndexedDBProxy.update, IndexedDBProxy.deleteRow, IndexedDBProxy.bulkGet,
      IndexedDBProxy.bulkAdd, IndexedDBProxy.bulkDelete, hgt, hval, Except.isErr]

/-- Witness for C6 on a fresh database with no tables: `getTable` reports the
formatted message and `add` fails. -/
theorem C6_unknown_table_fails_witness :
    (useIndexedDB "d").getTable "nope" = .error (invalidTableMsg "nope") ∧
    ((useIndexedDB "d").add "nope" [("x", 1)]).1.isErr = true := by
  have h := C6_unknown_table_fails (useIndexedDB "d") "nope" rfl
    [("x", 1)] [] [] 0 [] (.inl 0) (fun _ => .ok 0)
  exact ⟨h.1, h.2.2.2.2.2.1⟩

/-- C7: when the wrapped bulk insertion reports positional failures (a
`BulkError`, e.g. on duplicate primary keys), `bulkAdd` throws
`` `작업 ${pos} 실패하였고 해당 에러가 발생하였습니다. ${error}` `` for the
first failing position instead of returning a last-inserted primary key
(the transaction rolls back, leaving the proxy unchanged). -/
theorem C7_bulkAdd_bulk_error (p : IndexedDBProxy) (t : String) (ti : TableInfo)
    (items : List Rec) (pe : Nat × String) (rest : List (Nat × String))
    (hreg : p.getTable t = .ok ti)
    (hval : p.validExistTableSchema t (.array items) = .ok ())
    (hfail : (ti.bulkAddFrom 0 0 items).2.2 = pe :: rest) :
    p.bulkAdd t items = (.error (bulkAddPosFailMsg pe.1 pe.2), p) := by
  unfold IndexedDBProxy.bulkAdd
  rw [hval]
  dsimp only
  rw [hreg]
  dsimp only
  rw [hfail]

/-- Witness for C7 at the fixture: two records with the same primary key
`id = 3` make the wrapped `bulkAdd` fail at position 1, and the proxy throws
the formatted message. -/
theorem C7_bulkAdd_bulk_error_witness :
    sampleProxy.bulkAdd "friends" [[("id", 3)], [("id", 3)]] =
      (.error (bulkAddPosFailMsg 1 "ConstraintError"), sampleProxy) :=
  C7_bulkAdd_bulk_error sampleProxy "friends" friendsTable
    [[("id", 3)], [("id", 3)]] (1, "ConstraintError") [] rfl rfl (by decide)
